import Mathlib

/-!
Verification development for the tiny-sola repository.

The client logic lives in `frontend/src/App.tsx`. We give a shallow
embedding of its state and event handlers: each React `useState` slot
becomes a field of `AppState`, and each handler becomes a pure function
`AppState → AppState` (handlers that read the environment — fresh log
ids and timestamps produced by `createLogId()` / `Intl.DateTimeFormat`
— take them as explicit `LogMeta` arguments; handlers that receive a
server response take it as an explicit argument).
-/

namespace TinySola

/-- `Status` from App.tsx (line 52): the turn state machine of the client. -/
inductive Status where
  | idle
  | recording
  | uploading
  | reply_ready
  | error
deriving DecidableEq, Repr

/-- `LogTone` from App.tsx (line 60). -/
inductive LogTone where
  | info
  | warn
  | error
deriving DecidableEq, Repr

/-- `LogEntry` from App.tsx (lines 62-67). -/
structure LogEntry where
  id : String
  text : String
  tone : LogTone
  timestamp : String
deriving DecidableEq, Repr

/-- The environment-generated parts of a log entry: `createLogId()` and
`timeFormatter.format(new Date())` are nondeterministic, so the embedded
handlers take them as explicit arguments. -/
structure LogMeta where
  id : String
  timestamp : String
deriving DecidableEq, Repr

/-- The role tag of a `ConversationMessage` (App.tsx line 70). -/
inductive MsgRole where
  | user
  | assistant
deriving DecidableEq, Repr

/-- `ConversationMessage` from App.tsx (lines 69-72). -/
structure ConversationMessage where
  role : MsgRole
  content : String
deriving DecidableEq, Repr

/-- `RoleSkillInfo` from App.tsx (lines 74-80). -/
structure RoleSkillInfo where
  id : String
  name : String
  description : String
  requires_user_input : Bool
  placeholder : Option String
deriving DecidableEq, Repr

/-- `RoleInfo` from App.tsx (lines 82-93).  The TS field `alias` is
spelled `aliasName` here because `alias` is a Lean command keyword. -/
structure RoleInfo where
  id : String
  name : String
  aliasName : Option String
  tagline : Option String
  summary : Option String
  background : Option String
  style : Option String
  knowledge_focus : List String
  sample_questions : List String
  skills : List RoleSkillInfo
deriving DecidableEq, Repr

/-- `SkillResult` from App.tsx (lines 95-103). -/
structure SkillResult where
  id : String
  roleId : String
  roleName : String
  skillId : String
  skillName : String
  text : String
  timestamp : String
deriving DecidableEq, Repr

/-- The `ffmpeg` entry of `HealthDetails` (App.tsx lines 22-25). -/
structure FfmpegDetail where
  available : Bool
  path : Option String
deriving DecidableEq, Repr

/-- The `piper` entry of `HealthDetails` (App.tsx lines 26-31). -/
structure PiperDetail where
  binary_available : Bool
  binary_path : Option String
  model_available : Bool
  model_path : String
deriving DecidableEq, Repr

/-- The `ollama` entry of `HealthDetails` (App.tsx lines 32-37). -/
structure OllamaDetail where
  available : Bool
  host : String
  model : String
  error : Option String
deriving DecidableEq, Repr

/-- `HealthDetails` from App.tsx (lines 21-38). -/
structure HealthDetails where
  ffmpeg : FfmpegDetail
  piper : PiperDetail
  ollama : OllamaDetail
deriving DecidableEq, Repr

/-- The `status` field of `HealthResponse` (App.tsx line 41). -/
inductive HealthStatus where
  | ok
  | degraded
deriving DecidableEq, Repr

/-- `HealthResponse` from App.tsx (lines 40-44). -/
structure HealthResponse where
  status : HealthStatus
  timestamp : String
  details : HealthDetails
deriving DecidableEq, Repr

/-- The `phase` field of `HealthState` (App.tsx line 47). -/
inductive HealthPhase where
  | loading
  | ready
  | error
deriving DecidableEq, Repr

/-- `HealthState` from App.tsx (lines 46-50). -/
structure HealthState where
  phase : HealthPhase
  data : Option HealthResponse
  error : Option String
deriving DecidableEq, Repr

/-- The client state: one field per `useState` slot of `App` (App.tsx
lines 153-176); `conversationRef` mirrors `conversation` and is kept in
sync by every handler, so a single field suffices. -/
structure AppState where
  isRecording : Bool
  status : Status
  errorMsg : Option String
  logs : List LogEntry
  lastReplyText : String
  lastTranscription : String
  health : HealthState
  roles : List RoleInfo
  defaultRoleId : Option String
  selectedRoleId : Option String
  roleSearch : String
  conversation : List ConversationMessage
  skillResults : List SkillResult
  skillInputs : List (String × String)
  skillError : Option String
deriving DecidableEq, Repr

/-- `LOG_LIMIT` from App.tsx (line 6). -/
def LOG_LIMIT : Nat := 30

/-- The list update done by `pushLog` (App.tsx line 189):
`[entry, ...prev].slice(0, LOG_LIMIT)`. -/
def pushLogList (entry : LogEntry) (prev : List LogEntry) : List LogEntry :=
  (entry :: prev).take LOG_LIMIT

/-- Builds the `LogEntry` that `pushLog` constructs (App.tsx
lines 183-188) from the environment-generated id/timestamp. -/
def mkLogEntry (m : LogMeta) (text : String) (tone : LogTone) : LogEntry :=
  { id := m.id, text := text, tone := tone, timestamp := m.timestamp }

/-- `pushLog` (App.tsx lines 182-190) as a state transformer. -/
def pushLog (m : LogMeta) (text : String) (tone : LogTone) (s : AppState) : AppState :=
  { s with logs := pushLogList (mkLogEntry m text tone) s.logs }

/-- Operations a client session performs on the log list: `pushLog`
(App.tsx line 189) and `handleClearLogs` (App.tsx lines 500-502). -/
inductive LogEvent where
  | push (entry : LogEntry)
  | clear
deriving DecidableEq, Repr

/-- One log operation applied to the log list. -/
def applyLogEvent (l : List LogEntry) : LogEvent → List LogEntry
  | .push entry => pushLogList entry l
  | .clear => []

/-- A whole session of log operations, starting from the initial
`useState<LogEntry[]>([])` (App.tsx line 156). -/
def applyLogEvents (evs : List LogEvent) : List LogEntry :=
  evs.foldl applyLogEvent []

lemma length_applyLogEvent_le (l : List LogEntry) (ev : LogEvent) :
    (applyLogEvent l ev).length ≤ LOG_LIMIT := by
  cases ev with
  | push entry =>
      simp only [applyLogEvent, pushLogList]
      exact le_trans (List.length_take_le _ _) (le_refl _)
  | clear => simp [applyLogEvent]

lemma length_foldl_applyLogEvent_le (evs : List LogEvent) (l : List LogEntry)
    (h : l.length ≤ LOG_LIMIT) :
    (evs.foldl applyLogEvent l).length ≤ LOG_LIMIT := by
  induction evs generalizing l with
  | nil => simpa using h
  | cons ev rest ih =>
      simp only [List.foldl_cons]
      exact ih _ (length_applyLogEvent_le l ev)

/-- C8: the client call log is a bounded FIFO-evicted sequence: every
`pushLog` prepends the new entry and truncates to the most recent
`LOG_LIMIT = 30` entries, so after any sequence of push/clear operations
the log list never exceeds 30 entries, and a push puts the newest entry
first while keeping the log a truncation (prefix) of the prepended list. -/
theorem pushLog_bounded_fifo (evs : List LogEvent) (entry : LogEntry)
    (l : List LogEntry) :
    (applyLogEvents evs).length ≤ 30 ∧
    (pushLogList entry l).length ≤ 30 ∧
    (pushLogList entry l).head? = some entry ∧
    (pushLogList entry l) <+: entry :: l := by
  refine ⟨?_, ?_, ?_, ?_⟩
  · exact length_foldl_applyLogEvent_le evs [] (by simp [LOG_LIMIT])
  · exact le_trans (List.length_take_le _ _) (le_refl _)
  · simp [pushLogList, LOG_LIMIT]
  · exact List.take_prefix _ _

/-! ## Request building and `/talk` response processing -/

/-- JavaScript `arr.slice(-8)`: the at-most-8 last elements of the
array, in order (used at App.tsx lines 433 and 557). -/
def sliceLast8 {α : Type} (l : List α) : List α :=
  l.drop (l.length - 8)

/-- JavaScript `x || ''` on a `string | undefined` value: `undefined`
and `''` are falsy, so the result is the string when present and
non-empty, else `''` (App.tsx lines 446-447). -/
def jsOrEmpty (o : Option String) : String :=
  match o with
  | none => ""
  | some str => str

/-- JavaScript `s || fallback` on a string: `''` is falsy
(App.tsx lines 452-453). -/
def jsOr (str fallback : String) : String :=
  if str = "" then fallback else str

/-- `roles.find((item) => item.id === roleId)` (App.tsx lines 449, 512). -/
def findRole (roles : List RoleInfo) (roleId : String) : Option RoleInfo :=
  roles.find? (fun r => r.id == roleId)

/-- The multipart form built by `sendToTalk` (App.tsx lines 430-433):
the `file` blob is opaque to the state model, so only `role_id` and
the JSON-encoded `history` are kept. -/
structure TalkRequest where
  role_id : String
  history : List ConversationMessage
deriving DecidableEq, Repr

/-- Builds the `/talk` request payload from the current conversation
(`history: JSON.stringify(conversationRef.current.slice(-8))`,
App.tsx line 433). -/
def buildTalkRequest (roleId : String) (conversation : List ConversationMessage) :
    TalkRequest :=
  { role_id := roleId, history := sliceLast8 conversation }

/-- The JSON body of a successful `/talk` response as the client reads
it (App.tsx lines 445-448): every field may be absent. -/
structure TalkResponseData where
  transcription : Option String
  reply_text : Option String
  reply_audio_base64 : Option String
deriving DecidableEq, Repr

/-- `if (audioBase64)` (App.tsx line 462): playback is attempted only
when the field is present and non-empty (truthy). -/
def playsAudio (d : TalkResponseData) : Bool :=
  match d.reply_audio_base64 with
  | none => false
  | some a => a != ""

/-- The success branch of `sendToTalk` (App.tsx lines 445-469): reads
`transcription`/`reply_text` with `|| ''`, pushes the two log lines,
records the reply and transcription, appends the user and assistant
turns to the conversation, and sets the status to `reply_ready`.
Audio playback (lines 462-467) has no effect on the state. -/
def processTalkSuccess (m1 m2 : LogMeta) (roleId : String)
    (d : TalkResponseData) (s : AppState) : AppState :=
  let transcription := jsOrEmpty d.transcription
  let replyText := jsOrEmpty d.reply_text
  let roleLabel := match findRole s.roles roleId with
    | some role => role.name
    | none => "角色"
  let s1 := pushLog m1 ("ASR: " ++ jsOr transcription "(无文本)") .info s
  let s2 := pushLog m2 (roleLabel ++ ": " ++ jsOr replyText "(无回复)") .info s1
  { s2 with
    lastReplyText := replyText
    lastTranscription := transcription
    conversation := s2.conversation ++
      [{ role := .user, content := transcription },
       { role := .assistant, content := replyText }]
    status := .reply_ready }

/-- The catch branch of `sendToTalk` (App.tsx lines 470-475), reached
when `fetch` fails or `response.ok` is false: sets the error status and
the diagnostic message and pushes a log line. -/
def processTalkFailure (m : LogMeta) (message : String) (s : AppState) : AppState :=
  let s1 := { s with status := Status.error, errorMsg := some ("调用失败: " ++ message) }
  pushLog m "调用 /talk 失败" .error s1

/-! ## Skill invocation -/

/-- `skillInputs[skill.id]` on the `Record<string, string>` state
(App.tsx line 539). -/
def lookupInput (inputs : List (String × String)) (key : String) : Option String :=
  (inputs.find? (fun p => p.1 == key)).map (fun p => p.2)

/-- The JSON body of the skill request (App.tsx lines 555-559). -/
structure SkillRequest where
  roleId : String
  skillId : String
  input_text : Option String
  history : List ConversationMessage
  speak : Bool
deriving DecidableEq, Repr

/-- How far `handleInvokeSkill` gets before (or when) it sends the
request. -/
inductive SkillOutcome where
  | noRole
  | missingInput
  | invoked (req : SkillRequest)
deriving DecidableEq, Repr

/-- The validation and request-building prefix of `handleInvokeSkill`
(App.tsx lines 533-560): no selected role aborts with a role error
(lines 534-538); `const input = skillInputs[skill.id]?.trim()` then
`if (skill.requires_user_input && !input)` aborts with the
missing-input validation error (lines 539-543); otherwise the request
is posted with `input_text`, the trimmed history and `speak: false`
(lines 550-560). -/
def invokeSkillOutcome (s : AppState) (skill : RoleSkillInfo) : SkillOutcome :=
  match s.selectedRoleId with
  | none => .noRole
  | some rid =>
    match findRole s.roles rid with
    | none => .noRole
    | some _ =>
      if skill.requires_user_input &&
          (jsOrEmpty ((lookupInput s.skillInputs skill.id).map String.trim) == "") then
        .missingInput
      else
        .invoked { roleId := rid, skillId := skill.id,
                   input_text := (lookupInput s.skillInputs skill.id).map String.trim,
                   history := sliceLast8 s.conversation, speak := false }

/-! ## Role selection and conversation reset -/

/-- `handleResetConversation` (App.tsx lines 492-498): clears the
conversation, the last reply text and the last transcription, and
pushes a log line. -/
def handleResetConversation (m : LogMeta) (s : AppState) : AppState :=
  pushLog m "已清空本次对话" .info
    { s with conversation := [], lastReplyText := "", lastTranscription := "" }

/-- `handleSelectRole` (App.tsx lines 508-522): selecting the already
selected role returns immediately; otherwise the per-role working state
is reset (skill inputs, skill results, skill error, conversation via
`handleResetConversation`, status back to idle) and, when the role id
resolves, a switch log line is pushed. `m1` is the log metadata for the
reset line, `m2` for the switch line. -/
def handleSelectRole (m1 m2 : LogMeta) (roleId : String) (s : AppState) : AppState :=
  if s.selectedRoleId = some roleId then s
  else
    let s1 := { s with selectedRoleId := some roleId, skillInputs := [],
                       skillResults := [], skillError := none }
    let s2 := handleResetConversation m1 s1
    let s3 := { s2 with status := Status.idle }
    match findRole s.roles roleId with
    | some role => pushLog m2 ("已切换到 " ++ role.name) .info s3
    | none => s3

/-! ## Recording gating -/

/-- `recordButtonDisabled` (App.tsx line 332):
`status === 'uploading' || isHealthLoading || !selectedRoleId`. -/
def recordButtonDisabled (s : AppState) : Bool :=
  (s.status == .uploading) || (s.health.phase == .loading) || s.selectedRoleId.isNone

/-- The `event.target` properties the shortcut handler reads
(App.tsx lines 275-284). -/
structure KeyTarget where
  isContentEditable : Bool
  tagName : String
  insideButton : Bool
deriving DecidableEq, Repr

/-- The keyboard event properties the shortcut handler reads
(App.tsx lines 271-287).  The TS property `repeat` is spelled
`isRepeat` here because `repeat` is a Lean keyword. -/
structure KeyEvent where
  isRepeat : Bool
  altKey : Bool
  ctrlKey : Bool
  metaKey : Bool
  target : Option KeyTarget
  code : String
  key : String
deriving DecidableEq, Repr

/-- What the space-bar shortcut does to the recorder. -/
inductive ShortcutAction where
  | none
  | stopRec
  | startRec
deriving DecidableEq, Repr

/-- `handleGlobalShortcut` (App.tsx lines 271-298) as a decision
function: repeated or modified key presses and presses inside editable
elements or buttons are ignored; space with a selected role toggles
recording unless the status is `uploading`. -/
def handleGlobalShortcut (s : AppState) (e : KeyEvent) : ShortcutAction :=
  if e.isRepeat || e.altKey || e.ctrlKey || e.metaKey then .none
  else
    let guarded := match e.target with
      | some t => t.isContentEditable || t.tagName == "INPUT" ||
          t.tagName == "TEXTAREA" || t.tagName == "SELECT" || t.insideButton
      | none => false
    if guarded then .none
    else if (e.code == "Space" || e.key == " ") && s.selectedRoleId.isSome then
      if s.status == .uploading then .none
      else if s.isRecording then .stopRec
      else .startRec
    else .none

/-- Result of the synchronous prefix of `startRecording`: the new state
and whether `navigator.mediaDevices.getUserMedia` is reached. -/
structure StartRecordingResult where
  state : AppState
  requestsMicrophone : Bool
deriving Repr

/-- The guard prefix of `startRecording` (App.tsx lines 372-381):
clears `errorMsg`, and with no selected role sets the error status, the
diagnostic message and a warn log line and returns before any
microphone or network access; otherwise it proceeds to request the
microphone. -/
def startRecordingBegin (m : LogMeta) (s : AppState) : StartRecordingResult :=
  let s0 := { s with errorMsg := none }
  match s0.selectedRoleId with
  | none =>
    { state := pushLog m "未选择角色, 无法开始录音" .warn
        { s0 with status := Status.error, errorMsg := some "请先在左侧选择一位角色。" }
      requestsMicrophone := false }
  | some _ => { state := s0, requestsMicrophone := true }

/-! ## The role registry (backend, modelled from the spec) -/

/-- Modelled from the spec: the backend FastAPI service that serves
`GET /roles` is not under src/ (only its README and the frontend caller
`loadRoles`, App.tsx lines 219-237, are).  Per the spec, the
RoleRegistry is a static catalog of personas, immutable after load,
owned for the process lifetime. -/
structure RoleRegistry where
  roles : List RoleInfo
  default_role_id : Option String
deriving DecidableEq, Repr

/-- The payload of `GET /roles` as the client reads it
(`payload.roles`, `payload.default_role_id`, App.tsx lines 226-228). -/
structure RolesResponse where
  roles : List RoleInfo
  default_role_id : Option String
deriving DecidableEq, Repr

/-- Modelled from the spec: `listRoles()` returns all Roles plus the
identifier of a designated default Role, in a stable order; the
registry is read-only after initialization, so the call returns the
registry state unchanged. -/
def listRoles (reg : RoleRegistry) : RolesResponse × RoleRegistry :=
  ({ roles := reg.roles, default_role_id := reg.default_role_id }, reg)

/-! ## The `/health` response shape -/

/-- A fragment of JSON, enough to state shape properties of the
`/health` payload. -/
inductive Jv where
  | str (s : String)
  | bool (b : Bool)
  | null
  | obj (fields : List (String × Jv))

/-- The keys of a JSON object, in order. -/
def jKeys : Jv → List String
  | .obj fields => fields.map (fun p => p.1)
  | _ => []

/-- Object field lookup. -/
def jGet (j : Jv) (key : String) : Option Jv :=
  match j with
  | .obj fields => (fields.find? (fun p => p.1 == key)).map (fun p => p.2)
  | _ => Option.none

/-- `string | null` fields. -/
def encodeOptStr (o : Option String) : Jv :=
  match o with
  | none => .null
  | some str => .str str

/-- The wire spelling of the health status (App.tsx line 41:
`status: 'ok' | 'degraded'`). -/
def healthStatusString : HealthStatus → String
  | .ok => "ok"
  | .degraded => "degraded"

/-- The JSON shape of the `details` object, read off the `HealthDetails`
client type (App.tsx lines 21-38), which is the repository's declaration
of the `/health` payload the backend produces. -/
def encodeHealthDetails (d : HealthDetails) : Jv :=
  .obj
    [("ffmpeg", .obj
        [("available", .bool d.ffmpeg.available),
         ("path", encodeOptStr d.ffmpeg.path)]),
     ("piper", .obj
        [("binary_available", .bool d.piper.binary_available),
         ("binary_path", encodeOptStr d.piper.binary_path),
         ("model_available", .bool d.piper.model_available),
         ("model_path", .str d.piper.model_path)]),
     ("ollama", .obj
        [("available", .bool d.ollama.available),
         ("host", .str d.ollama.host),
         ("model", .str d.ollama.model),
         ("error", encodeOptStr d.ollama.error)])]

/-- The JSON shape of a `GET /health` response, read off the
`HealthResponse` client type (App.tsx lines 40-44). -/
def encodeHealthResponse (r : HealthResponse) : Jv :=
  .obj
    [("status", .str (healthStatusString r.status)),
     ("timestamp", .str r.timestamp),
     ("details", encodeHealthDetails r.details)]

/-- The per-dependency entry names exactly as the spec sentence states
them: `details:\x7btranscoder:..., synthesizer:..., llm:...\x7d`.  Kept
separate from the source-derived encoding so the two can be compared. -/
def specHealthDetailKeys : List String :=
  ["transcoder", "synthesizer", "llm"]

/-! ## Concrete fixtures used by witnesses and counterexamples -/

/-- A sample skill that does not require user input. -/
def sampleSkill : RoleSkillInfo :=
  { id := "sk", name := "quiz", description := "d",
    requires_user_input := false, placeholder := Option.none }

/-- A sample role carrying `sampleSkill`. -/
def sampleRole : RoleInfo :=
  { id := "r1", name := "Harry", aliasName := Option.none, tagline := Option.none,
    summary := Option.none, background := Option.none, style := Option.none,
    knowledge_focus := [], sample_questions := [], skills := [sampleSkill] }

/-- A second sample role. -/
def sampleRole2 : RoleInfo :=
  { id := "r2", name := "Socrates", aliasName := Option.none, tagline := Option.none,
    summary := Option.none, background := Option.none, style := Option.none,
    knowledge_focus := [], sample_questions := [], skills := [] }

/-- A ten-turn conversation (longer than the 8-turn cap). -/
def sampleConv : List ConversationMessage :=
  List.replicate 10 { role := MsgRole.user, content := "hi" }

/-- Sample log metadata. -/
def sampleMeta : LogMeta := { id := "a", timestamp := "t" }

/-- More sample log metadata. -/
def sampleMeta2 : LogMeta := { id := "b", timestamp := "t" }

/-- A sample client state with `sampleRole` selected and a ten-turn
conversation. -/
def sampleState : AppState :=
  { isRecording := false, status := Status.idle, errorMsg := Option.none,
    logs := [], lastReplyText := "", lastTranscription := "",
    health := { phase := HealthPhase.ready, data := Option.none, error := Option.none },
    roles := [sampleRole], defaultRoleId := some "r1", selectedRoleId := some "r1",
    roleSearch := "", conversation := sampleConv, skillResults := [],
    skillInputs := [], skillError := Option.none }

/-- The request `invokeSkillOutcome` produces on `sampleState`. -/
def sampleSkillReq : SkillRequest :=
  { roleId := "r1", skillId := "sk", input_text := Option.none,
    history := sliceLast8 sampleConv, speak := false }

/-! ## C1: bounded, in-order history on /talk and skill requests -/

lemma sliceLast8_length_le {α : Type} (l : List α) : (sliceLast8 l).length ≤ 8 := by
  simp only [sliceLast8, List.length_drop]
  omega

lemma sliceLast8_suffix {α : Type} (l : List α) : sliceLast8 l <:+ l :=
  List.drop_suffix _ _

lemma sliceLast8_length_of_ge {α : Type} (l : List α) (h : 8 ≤ l.length) :
    (sliceLast8 l).length = 8 := by
  simp only [sliceLast8, List.length_drop]
  omega

/-- C1: every `/talk` request and every skill-invocation request
carries at most the 8 most recent conversation turns: the request
history is a suffix of the client conversation (so turns are in order
and older turns are dropped first), it never exceeds length 8, and once
the conversation holds at least 8 turns the history holds exactly 8. -/
theorem request_history_bounded (roleId : String)
    (conversation : List ConversationMessage) (s : AppState)
    (skill : RoleSkillInfo) :
    ((buildTalkRequest roleId conversation).history.length ≤ 8 ∧
      (buildTalkRequest roleId conversation).history <:+ conversation ∧
      (8 ≤ conversation.length →
        (buildTalkRequest roleId conversation).history.length = 8)) ∧
    (∀ req : SkillRequest, invokeSkillOutcome s skill = SkillOutcome.invoked req →
      req.history.length ≤ 8 ∧ req.history <:+ s.conversation ∧
      (8 ≤ s.conversation.length → req.history.length = 8)) := by
  constructor
  · exact ⟨sliceLast8_length_le _, sliceLast8_suffix _,
      fun h => sliceLast8_length_of_ge _ h⟩
  · intro req hreq
    have hhist : req.history = sliceLast8 s.conversation := by
      unfold invokeSkillOutcome at hreq
      split at hreq
      · exact absurd hreq (by simp)
      · split at hreq
        · exact absurd hreq (by simp)
        · split at hreq
          · exact absurd hreq (by simp)
          · cases hreq
            rfl
    rw [hhist]
    exact ⟨sliceLast8_length_le _, sliceLast8_suffix _,
      fun h => sliceLast8_length_of_ge _ h⟩

/-- Witness for C1 at a concrete ten-turn conversation. -/
theorem request_history_bounded_witness :
    (buildTalkRequest "r1" sampleConv).history.length = 8 ∧
    sampleSkillReq.history.length = 8 ∧
    sampleSkillReq.history <:+ sampleState.conversation := by
  have h := request_history_bounded "r1" sampleConv sampleState sampleSkill
  have hreq : invokeSkillOutcome sampleState sampleSkill =
      SkillOutcome.invoked sampleSkillReq := by decide
  exact ⟨h.1.2.2 (by decide), (h.2 sampleSkillReq hreq).2.2 (by decide),
    (h.2 sampleSkillReq hreq).2.1⟩

/-! ## C2: the missing-input validation error -/

/-- C2: `handleInvokeSkill` fails with the missing-input validation
error if and only if the skill requires user input and the supplied
input is absent or blank after trimming; in particular a skill with
`requires_user_input = false` never produces that error, whatever the
input state. -/
theorem invokeSkill_missingInput_iff (s : AppState) (skill : RoleSkillInfo) :
    (skill.requires_user_input = false →
      invokeSkillOutcome s skill ≠ SkillOutcome.missingInput) ∧
    (∀ rid : String, ∀ role : RoleInfo,
      s.selectedRoleId = some rid → findRole s.roles rid = some role →
      (invokeSkillOutcome s skill = SkillOutcome.missingInput ↔
        skill.requires_user_input = true ∧
        jsOrEmpty ((lookupInput s.skillInputs skill.id).map String.trim) = "")) := by
  constructor
  · intro hreq
    unfold invokeSkillOutcome
    cases hsel : s.selectedRoleId with
    | none => simp
    | some rid =>
      cases hfind : findRole s.roles rid with
      | none => simp [hfind]
      | some role => simp [hfind, hreq]
  · intro rid role hsel hrole
    simp only [invokeSkillOutcome, hsel, hrole]
    by_cases hcond : skill.requires_user_input &&
        (jsOrEmpty ((lookupInput s.skillInputs skill.id).map String.trim) == "")
    · rw [if_pos hcond]
      simp only [Bool.and_eq_true, beq_iff_eq] at hcond
      exact iff_of_true rfl ⟨hcond.1, hcond.2⟩
    · rw [if_neg hcond]
      constructor
      · intro h
        exact absurd h (by simp)
      · intro h
        exact absurd (by simp [h.1, h.2] : (skill.requires_user_input &&
          (jsOrEmpty ((lookupInput s.skillInputs skill.id).map String.trim) == "")) = true)
          hcond

/-- Witness for C2 on the sample state, where the selected role
resolves and the skill does not require input. -/
theorem invokeSkill_missingInput_iff_witness :
    invokeSkillOutcome sampleState sampleSkill ≠ SkillOutcome.missingInput ∧
    (invokeSkillOutcome sampleState sampleSkill = SkillOutcome.missingInput ↔
      sampleSkill.requires_user_input = true ∧
      jsOrEmpty ((lookupInput sampleState.skillInputs sampleSkill.id).map String.trim)
        = "") := by
  have h := invokeSkill_missingInput_iff sampleState sampleSkill
  exact ⟨h.1 rfl, h.2 "r1" sampleRole rfl (by decide)⟩

/-! ## C3: synthesis failure degrades the turn, it does not fail it -/

/-- C3: a successful `/talk` response completes the turn identically
whether or not `reply_audio_base64` is present: the status reaches
`reply_ready`, the transcription and reply text are recorded, the
conversation is extended by the new user and assistant turns, the
resulting state does not depend on the audio field at all, and with the
field absent no audio playback is attempted. -/
theorem talk_success_first_class (m1 m2 : LogMeta) (roleId : String)
    (d : TalkResponseData) (s : AppState) :
    (processTalkSuccess m1 m2 roleId d s).status = Status.reply_ready ∧
    (processTalkSuccess m1 m2 roleId d s).lastTranscription = jsOrEmpty d.transcription ∧
    (processTalkSuccess m1 m2 roleId d s).lastReplyText = jsOrEmpty d.reply_text ∧
    (processTalkSuccess m1 m2 roleId d s).conversation =
      s.conversation ++
        [{ role := MsgRole.user, content := jsOrEmpty d.transcription },
         { role := MsgRole.assistant, content := jsOrEmpty d.reply_text }] ∧
    processTalkSuccess m1 m2 roleId
        { d with reply_audio_base64 := Option.none } s =
      processTalkSuccess m1 m2 roleId d s ∧
    playsAudio { d with reply_audio_base64 := Option.none } = false :=
  ⟨rfl, rfl, rfl, rfl, rfl, rfl⟩

/-! ## C4: a failed /talk leaves the turn state unchanged -/

/-- C4: when `/talk` fails (network error or HTTP error status), the
client records no partially-built reply: the conversation, last reply
text, last transcription, skill results, role selection, role list and
health snapshot keep their prior values, and only the error status and
the diagnostic message are set (plus a log line). -/
theorem talk_failure_preserves_turn_state (m : LogMeta) (message : String)
    (s : AppState) :
    (processTalkFailure m message s).conversation = s.conversation ∧
    (processTalkFailure m message s).lastReplyText = s.lastReplyText ∧
    (processTalkFailure m message s).lastTranscription = s.lastTranscription ∧
    (processTalkFailure m message s).skillResults = s.skillResults ∧
    (processTalkFailure m message s).selectedRoleId = s.selectedRoleId ∧
    (processTalkFailure m message s).roles = s.roles ∧
    (processTalkFailure m message s).health = s.health ∧
    (processTalkFailure m message s).status = Status.error ∧
    (processTalkFailure m message s).errorMsg = some ("调用失败: " ++ message) :=
  ⟨rfl, rfl, rfl, rfl, rfl, rfl, rfl, rfl, rfl⟩

/-! ## C7: empty transcription or reply still completes the turn -/

/-- C7: a `/talk` turn whose transcription is empty (silence) and whose
reply text may also be empty is still processed as a well-formed
completed turn: the (possibly empty) user and assistant turns are
appended and the status reaches `reply_ready`. -/
theorem talk_empty_turn_completes (m1 m2 : LogMeta) (roleId : String)
    (d : TalkResponseData) (s : AppState)
    (htr : jsOrEmpty d.transcription = "") :
    (processTalkSuccess m1 m2 roleId d s).status = Status.reply_ready ∧
    (processTalkSuccess m1 m2 roleId d s).conversation =
      s.conversation ++
        [{ role := MsgRole.user, content := "" },
         { role := MsgRole.assistant, content := jsOrEmpty d.reply_text }] ∧
    (processTalkSuccess m1 m2 roleId d s).lastTranscription = "" := by
  refine ⟨rfl, ?_, ?_⟩
  · rw [← htr]
    rfl
  · rw [← htr]
    rfl

/-- Witness for C7: a concrete silent turn with an empty model reply. -/
theorem talk_empty_turn_completes_witness :
    (processTalkSuccess sampleMeta sampleMeta2 "r1"
        { transcription := some "", reply_text := some "",
          reply_audio_base64 := Option.none } sampleState).status =
      Status.reply_ready ∧
    (processTalkSuccess sampleMeta sampleMeta2 "r1"
        { transcription := some "", reply_text := some "",
          reply_audio_base64 := Option.none } sampleState).conversation =
      sampleState.conversation ++
        [{ role := MsgRole.user, content := "" },
         { role := MsgRole.assistant, content := "" }] := by
  have h := talk_empty_turn_completes sampleMeta sampleMeta2 "r1"
    { transcription := some "", reply_text := some "",
      reply_audio_base64 := Option.none } sampleState rfl
  exact ⟨h.1, h.2.1⟩

/-! ## C5: the shape of /health responses -/

/-- A concrete healthy `/health` response. -/
def sampleHealthResponse : HealthResponse :=
  { status := HealthStatus.ok, timestamp := "2024-01-01T00:00:00Z",
    details :=
      { ffmpeg := { available := true, path := some "/usr/bin/ffmpeg" },
        piper := { binary_available := true, binary_path := some "piper",
                   model_available := true, model_path := "voice.onnx" },
        ollama := { available := true, host := "http://localhost:11434",
                    model := "llama3:8b", error := Option.none } } }

/-- Counterexample to C5 as stated: the per-dependency entries of a
concrete `/health` response are keyed `ffmpeg`/`piper`/`ollama`, not
`transcoder`/`synthesizer`/`llm` as the claim names them. -/
theorem health_detail_keys_counterexample :
    (jGet (encodeHealthResponse sampleHealthResponse) "details").map jKeys =
      some ["ffmpeg", "piper", "ollama"] ∧
    ¬ (jGet (encodeHealthResponse sampleHealthResponse) "details").map jKeys =
      some specHealthDetailKeys := by
  constructor
  · rfl
  · intro h
    simp only [specHealthDetailKeys] at h
    exact absurd h (by decide)

/-- C5 (amended): every `GET /health` response has the shape
`status`/`timestamp`/`details` where the status is `"ok"` or
`"degraded"` and `details` contains exactly the per-dependency entries
`ffmpeg` (the transcoder: available, path), `piper` (the synthesizer:
binary_available, binary_path, model_available, model_path) and
`ollama` (the llm: available, host, model, error). -/
theorem health_response_shape (r : HealthResponse) :
    jKeys (encodeHealthResponse r) = ["status", "timestamp", "details"] ∧
    (healthStatusString r.status = "ok" ∨ healthStatusString r.status = "degraded") ∧
    (jGet (encodeHealthResponse r) "details").map jKeys =
      some ["ffmpeg", "piper", "ollama"] ∧
    ((jGet (encodeHealthResponse r) "details").bind (fun dj => jGet dj "ffmpeg")).map
        jKeys = some ["available", "path"] ∧
    ((jGet (encodeHealthResponse r) "details").bind (fun dj => jGet dj "piper")).map
        jKeys = some ["binary_available", "binary_path", "model_available",
          "model_path"] ∧
    ((jGet (encodeHealthResponse r) "details").bind (fun dj => jGet dj "ollama")).map
        jKeys = some ["available", "host", "model", "error"] := by
  refine ⟨rfl, ?_, rfl, rfl, rfl, rfl⟩
  cases r.status with
  | ok => exact Or.inl rfl
  | degraded => exact Or.inr rfl

/-! ## C6: /roles is a stable, idempotent listing -/

/-- C6: calling `listRoles` twice with no intervening state change
returns identical role lists in identical order together with the same
default role identifier, and leaves the registry unchanged (the
registry is read-only after initialization). -/
theorem listRoles_idempotent (reg : RoleRegistry) :
    (listRoles (listRoles reg).2).1 = (listRoles reg).1 ∧
    (listRoles (listRoles reg).2).1.roles = (listRoles reg).1.roles ∧
    (listRoles (listRoles reg).2).1.default_role_id =
      (listRoles reg).1.default_role_id ∧
    (listRoles reg).2 = reg :=
  ⟨rfl, rfl, rfl, rfl⟩

/-! ## C9: role selection resets exactly the per-role working state -/

/-- An undistinguished log entry used to fill the log to its cap. -/
def blandEntry : LogEntry := { id := "", text := "", tone := LogTone.info, timestamp := "" }

/-- The oldest entry of the full log below. -/
def oldestEntry : LogEntry := { id := "old", text := "old", tone := LogTone.info, timestamp := "" }

/-- A log at the 30-entry cap whose oldest entry is `oldestEntry`. -/
def fullLogs : List LogEntry := List.replicate 29 blandEntry ++ [oldestEntry]

/-- `sampleState` with a second role available and the log at its cap. -/
def fullLogState : AppState :=
  { sampleState with roles := [sampleRole, sampleRole2], logs := fullLogs }

/-- Counterexample to C9 as stated: selecting a different role pushes
two log lines (the conversation-reset line and the role-switch line),
so with the log at its 30-entry cap the oldest prior entries are
evicted — the prior log entries are not all unchanged. -/
theorem select_role_evicts_oldest_log :
    fullLogState.logs.length = 30 ∧
    oldestEntry ∈ fullLogState.logs ∧
    (handleSelectRole sampleMeta sampleMeta2 "r2" fullLogState).selectedRoleId =
      some "r2" ∧
    oldestEntry ∉ (handleSelectRole sampleMeta sampleMeta2 "r2" fullLogState).logs := by
  decide

/-- C9 (amended): selecting the already selected role changes no client
state; selecting a different role resets exactly the per-role working
state — skill inputs, skill results, skill error, conversation, last
reply text, last transcription, and status back to idle — while the
loaded role list, default role id, health snapshot and search text are
unchanged, and the prior log entries are preserved in order behind the
newly pushed reset/switch lines, subject to the 30-entry log cap (the
oldest prior entries may be evicted). -/
theorem handleSelectRole_frame (m1 m2 : LogMeta) (roleId : String) (s : AppState) :
    (s.selectedRoleId = some roleId → handleSelectRole m1 m2 roleId s = s) ∧
    (s.selectedRoleId ≠ some roleId →
      (handleSelectRole m1 m2 roleId s).selectedRoleId = some roleId ∧
      (handleSelectRole m1 m2 roleId s).skillInputs = [] ∧
      (handleSelectRole m1 m2 roleId s).skillResults = [] ∧
      (handleSelectRole m1 m2 roleId s).skillError = Option.none ∧
      (handleSelectRole m1 m2 roleId s).conversation = [] ∧
      (handleSelectRole m1 m2 roleId s).lastReplyText = "" ∧
      (handleSelectRole m1 m2 roleId s).lastTranscription = "" ∧
      (handleSelectRole m1 m2 roleId s).status = Status.idle ∧
      (handleSelectRole m1 m2 roleId s).roles = s.roles ∧
      (handleSelectRole m1 m2 roleId s).defaultRoleId = s.defaultRoleId ∧
      (handleSelectRole m1 m2 roleId s).health = s.health ∧
      (handleSelectRole m1 m2 roleId s).roleSearch = s.roleSearch ∧
      (handleSelectRole m1 m2 roleId s).isRecording = s.isRecording ∧
      (handleSelectRole m1 m2 roleId s).logs =
        ((match findRole s.roles roleId with
          | some role => [mkLogEntry m2 ("已切换到 " ++ role.name) LogTone.info]
          | none => []) ++
          mkLogEntry m1 "已清空本次对话" LogTone.info :: s.logs).take 30) := by
  constructor
  · intro h
    simp [handleSelectRole, h]
  · intro hne
    unfold handleSelectRole
    rw [if_neg hne]
    cases hfind : findRole s.roles roleId with
    | none =>
      refine ⟨rfl, rfl, rfl, rfl, rfl, rfl, rfl, rfl, rfl, rfl, rfl, rfl, rfl, ?_⟩
      simp [handleResetConversation, pushLog, pushLogList, LOG_LIMIT]
    | some role =>
      refine ⟨rfl, rfl, rfl, rfl, rfl, rfl, rfl, rfl, rfl, rfl, rfl, rfl, rfl, ?_⟩
      simp only [handleResetConversation, pushLog, pushLogList, LOG_LIMIT,
        List.singleton_append]
      rw [List.take_succ_cons, List.take_take]
      rfl

/-- Witness for C9: the no-op branch on the already selected role, and
the reset branch when switching to the second role. -/
theorem handleSelectRole_frame_witness :
    handleSelectRole sampleMeta sampleMeta2 "r1" sampleState = sampleState ∧
    (handleSelectRole sampleMeta sampleMeta2 "r2" fullLogState).selectedRoleId =
      some "r2" ∧
    (handleSelectRole sampleMeta sampleMeta2 "r2" fullLogState).conversation = [] ∧
    (handleSelectRole sampleMeta sampleMeta2 "r2" fullLogState).status = Status.idle := by
  have h1 := handleSelectRole_frame sampleMeta sampleMeta2 "r1" sampleState
  have h2 := handleSelectRole_frame sampleMeta sampleMeta2 "r2" fullLogState
  have hne : fullLogState.selectedRoleId ≠ some "r2" := by decide
  exact ⟨h1.1 rfl, (h2.2 hne).1, (h2.2 hne).2.2.2.2.1, (h2.2 hne).2.2.2.2.2.2.2.1⟩

/-! ## C10: no recording while a turn is in flight or without a role -/

/-- A plain space-bar key press outside any editable element. -/
def spaceKeyEvent : KeyEvent :=
  { isRepeat := false, altKey := false, ctrlKey := false, metaKey := false,
    target := Option.none, code := "Space", key := " " }

/-- `sampleState` while a turn is in flight and with no role selected. -/
def gatingState : AppState :=
  { sampleState with status := Status.uploading, selectedRoleId := Option.none }

/-- C10: a new recording can never be started while a turn is in flight
or without a role selected: the record button is disabled whenever the
status is `uploading`, the health check is still loading, or no role is
selected; the space-bar shortcut performs no recorder action while the
status is `uploading` or no role is selected; and `startRecording`
invoked with no selected role sets the error status and diagnostic
message and returns without requesting microphone access, leaving the
conversation untouched. -/
theorem recording_gated (s : AppState) (e : KeyEvent) (m : LogMeta) :
    ((s.status = Status.uploading ∨ s.health.phase = HealthPhase.loading ∨
        s.selectedRoleId = Option.none) → recordButtonDisabled s = true) ∧
    (s.status = Status.uploading → handleGlobalShortcut s e = ShortcutAction.none) ∧
    (s.selectedRoleId = Option.none →
      handleGlobalShortcut s e = ShortcutAction.none) ∧
    (s.selectedRoleId = Option.none →
      (startRecordingBegin m s).requestsMicrophone = false ∧
      (startRecordingBegin m s).state.status = Status.error ∧
      (startRecordingBegin m s).state.errorMsg = some "请先在左侧选择一位角色。" ∧
      (startRecordingBegin m s).state.conversation = s.conversation) := by
  refine ⟨?_, ?_, ?_, ?_⟩
  · intro h
    rcases h with h | h | h <;> simp [recordButtonDisabled, h]
  · intro h
    simp only [handleGlobalShortcut, h]
    split
    · rfl
    · split
      · rfl
      · split
        · rfl
        · rfl
  · intro h
    simp only [handleGlobalShortcut, h]
    split
    · rfl
    · split
      · rfl
      · split
        · rename_i hcond
          simp at hcond
        · rfl
  · intro h
    refine ⟨?_, ?_, ?_, ?_⟩ <;>
      simp [startRecordingBegin, h, pushLog, pushLogList, mkLogEntry]

/-- Witness for C10 on a concrete in-flight state without a selected
role and a plain space-bar press. -/
theorem recording_gated_witness :
    recordButtonDisabled gatingState = true ∧
    handleGlobalShortcut gatingState spaceKeyEvent = ShortcutAction.none ∧
    (startRecordingBegin sampleMeta gatingState).requestsMicrophone = false ∧
    (startRecordingBegin sampleMeta gatingState).state.status = Status.error := by
  have h := recording_gated gatingState spaceKeyEvent sampleMeta
  exact ⟨h.1 (Or.inl rfl), h.2.2.1 rfl, (h.2.2.2 rfl).1, (h.2.2.2 rfl).2.1⟩

end TinySola
